import Mathlib

/-!
Verification of the PRSummarizer pipeline (modularized_code), a Gmail
press-release summarizer.  The development shallowly embeds the content
extraction, normalization, classification/summarization and orchestration
logic of the Python source.  External collaborators (the Gmail fetch, the
language model, `json.loads`, BeautifulSoup parsing, HTTP requests, the
scraper and the storage sink) are modelled as injected functions, exactly at
the boundaries where the source calls them; everything the repository itself
computes is translated as executable Lean definitions, so every theorem can
be instantiated on concrete inputs by plain evaluation.
-/

/-- Model of a raised Python exception (any subclass of `Exception`).
`typeError` stands for `TypeError` (bad subscript on a non-dict),
`keyError` for `KeyError` (missing dict key), `attributeError` for
`AttributeError` (e.g. `.get` on a non-dict), and `exc` for any other
exception raised by a collaborator, carrying its message. -/
inductive PyErr where
  | typeError : PyErr
  | keyError : PyErr
  | attributeError : PyErr
  | exc : String → PyErr
deriving DecidableEq, Repr

/-! ### Python string primitives

Executable models of the Python string operations the source uses, defined
over the character list of a `String` so that they reduce on closed
inputs. -/

/-- Python `s.startswith(pre)`. -/
def pyStartsWith (s pre : String) : Bool :=
  pre.data.isPrefixOf s.data

/-- ASCII lower-casing of one character, as Python `str.lower` acts on the
header names appearing here. -/
def pyLowerChar (c : Char) : Char :=
  if 'A' ≤ c ∧ c ≤ 'Z' then Char.ofNat (c.toNat + 32) else c

/-- Python `s.lower()`. -/
def pyLower (s : String) : String :=
  String.mk (s.data.map pyLowerChar)

/-- The characters removed by Python `str.strip()` (ASCII whitespace). -/
def pyIsSpace (c : Char) : Bool :=
  c = ' ' || c = '\t' || c = '\n' || c = '\r' || c = '\x0b' || c = '\x0c'

/-- Python `s.strip()`. -/
def pyStrip (s : String) : String :=
  String.mk (((s.data.dropWhile pyIsSpace).reverse.dropWhile pyIsSpace).reverse)

/-- Python string slicing `s[:n]` (counts code points). -/
def pySliceTake (s : String) (n : Nat) : String :=
  String.mk (s.data.take n)

/-! ### Base64 and UTF-8 decoding (model of CPython `base64` / `str.decode`)

`_decode_body` in `modules/content_processor.py` calls
`base64.urlsafe_b64decode(data).decode('utf-8')` and, on failure,
`base64.b64decode(data).decode('utf-8')`.  The definitions below model the
lenient (non-strict) CPython decoder: non-ASCII input is rejected, characters
outside the alphabet are discarded, data characters are read up to the first
`=`, a data-length residue of 1 mod 4 is rejected, a residue of 2 or 3 mod 4
requires a following `=`, and the resulting bytes must form valid UTF-8. -/

/-- Value of a character in the standard base64 alphabet. -/
def b64Val (c : Char) : Option Nat :=
  if 'A' ≤ c ∧ c ≤ 'Z' then some (c.toNat - 'A'.toNat)
  else if 'a' ≤ c ∧ c ≤ 'z' then some (c.toNat - 'a'.toNat + 26)
  else if '0' ≤ c ∧ c ≤ '9' then some (c.toNat - '0'.toNat + 52)
  else if c = '+' then some 62
  else if c = '/' then some 63
  else none

/-- The character translation performed by `base64.urlsafe_b64decode`:
`-` becomes `+` and `_` becomes `/`. -/
def urlsafeTranslate (c : Char) : Char :=
  if c = '-' then '+' else if c = '_' then '/' else c

/-- Reassemble 6-bit values into bytes: every full group of four sextets
yields three bytes; a trailing group of two or three sextets yields one or
two bytes (excess low bits are discarded, as in lenient CPython). -/
def b64SextetsToBytes : List Nat → List Nat
  | a :: b :: c :: d :: rest =>
      (a * 4 + b / 16) :: ((b % 16) * 16 + c / 4) :: ((c % 4) * 64 + d)
        :: b64SextetsToBytes rest
  | [a, b] => [a * 4 + b / 16]
  | [a, b, c] => [a * 4 + b / 16, (b % 16) * 16 + c / 4]
  | _ => []

/-- Model of `base64.b64decode` on a `str` argument (lenient mode): reject
non-ASCII input, discard characters outside the alphabet, take data
characters up to the first `=`, and check the padding rules. Returns the
decoded bytes, or `none` when CPython would raise. -/
def b64decodeBytes (s : String) : Option (List Nat) :=
  if s.data.any (fun c => 127 < c.toNat) then none
  else
    let rel := s.data.filter (fun c => (b64Val c).isSome || c = '=')
    let dataChars := rel.takeWhile (fun c => c ≠ '=')
    let n := dataChars.length
    let sextets := dataChars.map (fun c => (b64Val c).getD 0)
    if n % 4 = 1 then none
    else if n % 4 = 0 then some (b64SextetsToBytes sextets)
    else if dataChars.length < rel.length then some (b64SextetsToBytes sextets)
    else none

/-- True for a UTF-8 continuation byte `10xxxxxx`. -/
def isCont (b : Nat) : Bool := 0x80 ≤ b ∧ b ≤ 0xBF

/-- Strict UTF-8 decoding of a byte list (model of `bytes.decode('utf-8')`):
rejects overlong encodings, surrogates and out-of-range code points. -/
def utf8Decode : List Nat → Option (List Char)
  | [] => some []
  | b :: bs =>
    if b ≤ 0x7F then
      (utf8Decode bs).map (fun cs => Char.ofNat b :: cs)
    else if 0xC2 ≤ b ∧ b ≤ 0xDF then
      match bs with
      | b2 :: bs2 =>
          if isCont b2 then
            (utf8Decode bs2).map
              (fun cs => Char.ofNat ((b - 0xC0) * 0x40 + (b2 - 0x80)) :: cs)
          else none
      | [] => none
    else if 0xE0 ≤ b ∧ b ≤ 0xEF then
      match bs with
      | b2 :: b3 :: bs3 =>
          let lo2 := if b = 0xE0 then 0xA0 else 0x80
          let hi2 := if b = 0xED then 0x9F else 0xBF
          if (lo2 ≤ b2 ∧ b2 ≤ hi2) ∧ isCont b3 then
            (utf8Decode bs3).map
              (fun cs =>
                Char.ofNat ((b - 0xE0) * 0x1000 + (b2 - 0x80) * 0x40 + (b3 - 0x80)) :: cs)
          else none
      | _ => none
    else if 0xF0 ≤ b ∧ b ≤ 0xF4 then
      match bs with
      | b2 :: b3 :: b4 :: bs4 =>
          let lo2 := if b = 0xF0 then 0x90 else 0x80
          let hi2 := if b = 0xF4 then 0x8F else 0xBF
          if (lo2 ≤ b2 ∧ b2 ≤ hi2) ∧ isCont b3 ∧ isCont b4 then
            (utf8Decode bs4).map
              (fun cs =>
                Char.ofNat ((b - 0xF0) * 0x40000 + (b2 - 0x80) * 0x1000
                  + (b3 - 0x80) * 0x40 + (b4 - 0x80)) :: cs)
          else none
      | _ => none
    else none

/-- `base64.urlsafe_b64decode(s).decode('utf-8')` as an `Option`:
translate the URL-safe alphabet, then decode. -/
def urlsafe_b64decode_utf8 (s : String) : Option String :=
  (b64decodeBytes (String.mk (s.data.map urlsafeTranslate))).bind
    (fun bytes => (utf8Decode bytes).map String.mk)

/-- `base64.b64decode(s).decode('utf-8')` as an `Option`. -/
def standard_b64decode_utf8 (s : String) : Option String :=
  (b64decodeBytes s).bind (fun bytes => (utf8Decode bytes).map String.mk)

/-- `_decode_body` from `modules/content_processor.py`: empty input yields
`''`; otherwise try URL-safe base64 decoding as UTF-8; on any failure try
standard base64; on any further failure return `''`.  All exceptions are
caught inside, so the function is total. -/
def decode_body (data : String) : String :=
  if data = "" then ""
  else
    match urlsafe_b64decode_utf8 data with
    | some s => s
    | none =>
      match standard_b64decode_utf8 data with
      | some s => s
      | none => ""

/-! ### MIME payload model and ContentExtractor

A Gmail API payload node has a `mimeType`, an optional `body.data` base64
string (absent data modelled as `""`, matching
`part.get('body', {}).get('data', '')`) and an optional `parts` list
(`PartsField.absent` models a node without a `'parts'` key, matching the
`'parts' in part` check in `_extract_html`).  A mutual inductive is used so
that the tree walk is structurally recursive and computes on closed
trees. -/

mutual
/-- A node of the Gmail payload tree. -/
inductive Payload where
  | mk (mimeType : String) (bodyData : String) (parts : PartsField)

/-- The optional `parts` key of a node. -/
inductive PartsField where
  | absent
  | present (ps : PayloadList)

/-- A sequence of sibling parts. -/
inductive PayloadList where
  | nil
  | cons (head : Payload) (tail : PayloadList)
end

/-- The `mimeType` field. -/
def Payload.mimeType : Payload → String
  | .mk t _ _ => t

/-- The `body.data` field, `""` when absent. -/
def Payload.bodyData : Payload → String
  | .mk _ d _ => d

/-- The `parts` field. -/
def Payload.parts : Payload → PartsField
  | .mk _ _ p => p

/-- Concatenation of sibling lists (used only to state theorems). -/
def PayloadList.append : PayloadList → PayloadList → PayloadList
  | .nil, ys => ys
  | .cons x xs, ys => .cons x (PayloadList.append xs ys)

/-- A predicate holding for every part of a sibling list (used only to
state theorems). -/
def PayloadList.Forall (P : Payload → Prop) : PayloadList → Prop
  | .nil => True
  | .cons x xs => P x ∧ PayloadList.Forall P xs

/-- `payload.get('parts', [])`. -/
def Payload.partsOrNil (p : Payload) : PayloadList :=
  match p.parts with
  | .present ps => ps
  | .absent => .nil

/-- The loop of `_extract_html`: walk the sibling list left to right carrying
the `plain_content` accumulator (each `text/plain` part with body data
overwrites it).  A `text/html` part with body data returns its decoded body
at once; a nested `multipart` part with a `parts` key returns its own
extraction when that is non-empty; at the end of the list a truthy plain
accumulator is wrapped in `pre` tags, otherwise the result is `''`. -/
def extractHtmlAux : PayloadList → Option String → String
  | .nil, plain =>
      match plain with
      | some p => if p = "" then "" else "<pre>" ++ p ++ "</pre>"
      | none => ""
  | .cons (Payload.mk ty data parts) rest, plain =>
      if ty = "text/html" then
        if data ≠ "" then decode_body data
        else extractHtmlAux rest plain
      else if ty = "text/plain" then
        if data ≠ "" then extractHtmlAux rest (some (decode_body data))
        else extractHtmlAux rest plain
      else if pyStartsWith ty "multipart" then
        match parts with
        | .present ps =>
            let nested := extractHtmlAux ps none
            if nested ≠ "" then nested else extractHtmlAux rest plain
        | .absent => extractHtmlAux rest plain
      else extractHtmlAux rest plain

/-- `_extract_html` from `modules/content_processor.py`. -/
def extract_html (parts : PayloadList) : String :=
  extractHtmlAux parts none

/-- `_extract_email_body` from `modules/content_processor.py`: dispatch on
the top-level MIME type. -/
def extract_email_body (payload : Payload) : String :=
  if pyStartsWith payload.mimeType "multipart" then
    extract_html payload.partsOrNil
  else if payload.mimeType = "text/html" then
    if payload.bodyData ≠ "" then decode_body payload.bodyData else ""
  else if payload.mimeType = "text/plain" then
    if payload.bodyData ≠ "" then "<pre>" ++ decode_body payload.bodyData ++ "</pre>"
    else ""
  else
    if payload.bodyData ≠ "" then decode_body payload.bodyData else ""

/-! ### Email parsing (`parse_email_content`, `get_email_sender`)

`msg_data` is modelled by its three fields read by the source:
`payload.headers` (a list of name/value pairs), the payload tree and the
snippet.  `email.utils.parsedate_to_datetime(...).astimezone(utc).isoformat()`
is an external library call, injected as `parseDate : String → Option String`
(`none` models the raised exception on an unparsable date), and the current
UTC time `datetime.now(timezone.utc).isoformat()` is injected as `now`. -/

/-- The fields of the Gmail API message object used by the source. -/
structure MsgData where
  headers : List (String × String)
  payload : Payload
  snippet : String

/-- `next((h['value'] for h in headers if h['name'].lower() == name), '')`. -/
def headerValue (headers : List (String × String)) (name : String) : String :=
  match headers.find? (fun h => pyLower h.1 = name) with
  | some h => h.2
  | none => ""

/-- The dict returned by `parse_email_content`. -/
structure ParsedEmail where
  subject : String
  timestamp : String
  html : String

/-- `parse_email_content` from `modules/content_processor.py`. The
`timestamp` starts as `''`; only when the `Date` header value is non-empty
is it set — to the parsed date, or to the current time when parsing
raises. The body falls back to the snippet wrapped in `pre` tags, then to a
fixed placeholder. -/
def parse_email_content (parseDate : String → Option String) (now : String)
    (msg : MsgData) : ParsedEmail :=
  let subject := headerValue msg.headers "subject"
  let dateRaw := headerValue msg.headers "date"
  let timestamp :=
    if dateRaw = "" then ""
    else
      match parseDate dateRaw with
      | some t => t
      | none => now
  let htmlBody := extract_email_body msg.payload
  let finalHtml :=
    if htmlBody = "" then
      if msg.snippet ≠ "" then "<pre>" ++ msg.snippet ++ "</pre>"
      else "<pre>No content could be extracted from this email</pre>"
    else htmlBody
  ⟨subject, timestamp, finalHtml⟩

/-- `get_email_sender` from `modules/content_processor.py`. -/
def get_email_sender (msg : MsgData) : String :=
  match msg.headers.find? (fun h => pyLower h.1 = "from" || pyLower h.1 = "sender") with
  | some h => h.2
  | none => ""

/-! ### BodyNormalizer (`process_html_content`, `resolve_urls`)

BeautifulSoup is external: parsing is injected as
`parseHtml : String → Except PyErr Soup`, where `Soup` records exactly the
three library outputs the source reads after `decompose` of the non-content
tags: the hrefs of `find_all('a', href=True)`, the `stripped_strings`
sequence, and `get_text()`.  `requests.get(url, allow_redirects=True,
timeout=5)` is injected as `httpGet`, whose `.error` case is a raised
`requests.exceptions.RequestException` carrying its message. -/

/-- The parsed-soup values read by `process_html_content`. -/
structure Soup where
  anchorHrefs : List String
  strippedStrings : List String
  textContent : String

/-- Length of the scheme matched by the pattern at the head of the list:
8 for an `https://` head, 7 for `http://`, none otherwise. -/
def schemeLen (cs : List Char) : Option Nat :=
  if cs.take 8 = "https://".data then some 8
  else if cs.take 7 = "http://".data then some 7
  else none

/-- Scan of `re.findall(r'https?://\S+', text)`: at each position where a
scheme begins, the match is the maximal non-whitespace run from there, kept
only when it extends past the scheme (`\S+` needs at least one character);
scanning resumes after the match.  The fuel argument (initially the text
length) only makes the recursion structural; it never runs out, since every
step consumes at least one character. -/
def findUrlsAux : Nat → List Char → List String
  | 0, _ => []
  | _ + 1, [] => []
  | fuel + 1, c :: rest =>
    match schemeLen (c :: rest) with
    | some k =>
        let run := (c :: rest).takeWhile (fun ch => !pyIsSpace ch)
        if k < run.length then
          String.mk run :: findUrlsAux fuel (rest.drop (run.length - 1))
        else findUrlsAux fuel rest
    | none => findUrlsAux fuel rest

/-- `re.findall(r'https?://\S+', text)` on a string. -/
def findUrls (text : String) : List String :=
  findUrlsAux text.data.length text.data

/-- `resolve_urls` from `utils/helpers.py`: each URL is fetched following
redirects; a `RequestException` is converted to an `"Error: ..."` sentinel
entry, so the output has one entry per input URL. -/
def resolve_urls (httpGet : String → Except String String)
    (urlList : List String) : List String :=
  urlList.map (fun url =>
    match httpGet url with
    | .ok finalUrl => finalUrl
    | .error e => "Error: " ++ e)

/-- The `list(set(urls + text_urls))` step of `process_html_content`.
Python's set iteration order is unspecified; the model keeps one occurrence
of each string, which is adequate for every order-independent property. -/
def dedupUrls (urls textUrls : List String) : List String :=
  (urls ++ textUrls).dedup

/-- `process_html_content` from `modules/content_processor.py`: on a parse
failure return `("", [])`; otherwise collect anchor hrefs, truncate the
joined stripped strings to 1000 characters, find bare URLs in the text,
deduplicate the union and resolve redirects. -/
def process_html_content (parseHtml : String → Except PyErr Soup)
    (httpGet : String → Except String String) (html : String) :
    String × List String :=
  match parseHtml html with
  | .error _ => ("", [])
  | .ok soup =>
    let urls := soup.anchorHrefs
    let body := pySliceTake (String.intercalate " " soup.strippedStrings) 1000
    let textUrls := findUrls soup.textContent
    let allUrls := dedupUrls urls textUrls
    let finalUrls := resolve_urls httpGet allUrls
    (body, finalUrls)

/-! ### JSON values and Python dict operations

`json.loads` may return any JSON value; the orchestrator and the AI client
pass such values around untyped.  `JVal` models them, and the dict
operations below model Python subscripting, `.get` and truthiness,
returning `Except PyErr` where Python would raise. -/

/-- A JSON value as produced by `json.loads`. -/
inductive JVal where
  | null
  | bool (b : Bool)
  | num (n : Int)
  | str (s : String)
  | arr (xs : List JVal)
  | obj (kvs : List (String × JVal))

/-- Python `value[key]` with a string key: a `KeyError` on a dict without
the key, a `TypeError` on any non-dict value. -/
def JVal.subscript : JVal → String → Except PyErr JVal
  | .obj kvs, k =>
      match kvs.find? (fun kv => kv.1 = k) with
      | some kv => .ok kv.2
      | none => .error .keyError
  | _, _ => .error .typeError

/-- Python `value.get(key, default)`: an `AttributeError` on a non-dict. -/
def JVal.dictGet : JVal → String → JVal → Except PyErr JVal
  | .obj kvs, k, dflt =>
      .ok (match kvs.find? (fun kv => kv.1 = k) with
           | some kv => kv.2
           | none => dflt)
  | _, _, _ => .error .attributeError

/-- Python `value == "literal"` for a string literal: true exactly for the
equal string; comparisons never raise. -/
def JVal.eqStr (v : JVal) (s : String) : Bool :=
  match v with
  | .str t => t = s
  | _ => false

/-- Python truthiness of a JSON value. -/
def JVal.truthy : JVal → Bool
  | .null => false
  | .bool b => b
  | .num n => n ≠ 0
  | .str s => s ≠ ""
  | .arr xs => !xs.isEmpty
  | .obj kvs => !kvs.isEmpty

/-! ### AI client (`modules/ai_client.py`)

`model.generate_content` is injected as `generate : String → Except PyErr
String` (the `.ok` value being `response.text`), and `json.loads` as
`jsonLoads : String → Except PyErr JVal`.  The instruction prose of the two
prompts is abbreviated here (no claim depends on it); the dynamic fields —
subject, the classification body truncated to 1000 characters, the URL list
joined with the fixed separator or the literal `None`, and the unbounded
summarization text — are modelled exactly. -/

/-- `construct_classification_prompt`: classification instructions followed
by the subject, the body truncated to 1000 characters and the joined URL
list (`'   ,   '.join(urls) if urls else 'None'`). -/
def construct_classification_prompt (subject body : String) (urls : List String) : String :=
  "Prompt: You are given the content of an email. Classify whether the email is a press release."
    ++ " Return only a raw JSON object on a single line without markdown."
    ++ "\nSUBJECT: " ++ subject
    ++ "\nBODY: " ++ pySliceTake body 1000
    ++ "\nURLS: " ++ (if urls ≠ [] then String.intercalate "   ,   " urls else "None")

/-- `construct_summary_prompt`: summarization instructions followed by the
full, untruncated text. -/
def construct_summary_prompt (text : String) : String :=
  "Prompt: You are given a press release. Summarize the content with a concise structured summary"
    ++ " as a single-line raw JSON object without code blocks or markdown."
    ++ "\nTEXT: " ++ text

/-- The default returned by `call_gemini` on any failure; note the absent
`timestamp` key. -/
def defaultClassification : JVal :=
  .obj [("press_release", .str "NO"), ("type", .null), ("url", .null), ("text", .null)]

/-- `call_gemini`: send the prompt, strip the response text and decode it as
JSON; on any exception (model invocation or JSON decoding) return the
default classification. -/
def call_gemini (generate : String → Except PyErr String)
    (jsonLoads : String → Except PyErr JVal) (prompt : String) : JVal :=
  match generate prompt with
  | .error _ => defaultClassification
  | .ok text =>
    match jsonLoads (pyStrip text) with
    | .ok result => result
    | .error _ => defaultClassification

/-- `classify_press_release`: build the classification prompt and call the
model through `call_gemini`. -/
def classify_press_release (generate : String → Except PyErr String)
    (jsonLoads : String → Except PyErr JVal)
    (subject body : String) (urls : List String) : JVal :=
  call_gemini generate jsonLoads (construct_classification_prompt subject body urls)

/-- The default returned by `summarize_press_release` on any failure; note
the absent `timestamp` key. -/
def defaultSummary : JVal :=
  .obj [("headline", .str ""), ("key_result", .str ""),
        ("impacted_program", .str ""), ("next_step", .str "")]

/-- `summarize_press_release`: build the summary prompt, send it, strip and
decode the response; on any exception return the default summary. -/
def summarize_press_release (generate : String → Except PyErr String)
    (jsonLoads : String → Except PyErr JVal) (text : String) : JVal :=
  let prompt := construct_summary_prompt text
  match generate prompt with
  | .error _ => defaultSummary
  | .ok rtext =>
    match jsonLoads (pyStrip rtext) with
    | .ok result => result
    | .error _ => defaultSummary

/-! ### Orchestrator (`main.py`, `process_email_message`)

All collaborators are gathered in `Collab`.  `fetch` models
`service.users().messages().get(...).execute()`; `generate` is the one
injected Gemini model used by both prompts; `scrape` models
`sync_scrape_url` (which may return `None`); `save` models `save_to_gcs`.
Every collaborator may raise (`.error`), matching the quantification of the
error-containment claims. -/

/-- The injected collaborators of one pipeline run. -/
structure Collab where
  fetch : Except PyErr MsgData
  parseDate : String → Option String
  now : String
  parseHtml : String → Except PyErr Soup
  httpGet : String → Except String String
  generate : String → Except PyErr String
  jsonLoads : String → Except PyErr JVal
  scrape : JVal → Except PyErr (Option String)
  save : JVal → String → Except PyErr Bool

/-- The body of the `try` block of `process_email_message`, as an
exception-propagating computation.  The four mutable locals
(`summary`, `press_release_text`, `press_release_url`,
`press_release_website_timestamp`) are threaded explicitly; dict
subscripting on the untyped classification and summary values may raise,
exactly as in the source. -/
def pipeline (c : Collab) (messageId : String) : Except PyErr JVal :=
  match c.fetch with
  | .error e => .error e
  | .ok msg =>
    let emailInfo := parse_email_content c.parseDate c.now msg
    let sender := get_email_sender msg
    let bodyUrls := process_html_content c.parseHtml c.httpGet emailInfo.html
    let body := bodyUrls.1
    let urls := bodyUrls.2
    let classification := classify_press_release c.generate c.jsonLoads emailInfo.subject body urls
    let afterBranch : Except PyErr (JVal × JVal × JVal × JVal) :=
      match classification.subscript "press_release" with
      | .error e => .error e
      | .ok pr =>
        if pr.eqStr "YES" then
          let resolved : Except PyErr (Option String × JVal × JVal × JVal) :=
            match classification.subscript "type" with
            | .error e => .error e
            | .ok ty =>
              if ty.eqStr "inline" then
                match classification.subscript "timestamp" with
                | .error e => .error e
                | .ok tsv => .ok (some body, JVal.str body, JVal.null, tsv)
              else if ty.eqStr "url" then
                match classification.subscript "url" with
                | .error e => .error e
                | .ok url =>
                  if url.truthy then
                    match c.scrape url with
                    | .error e => .error e
                    | .ok textOpt =>
                        .ok (textOpt,
                             (match textOpt with
                              | some t => JVal.str t
                              | none => JVal.null),
                             url, JVal.null)
                  else .ok (none, JVal.null, JVal.null, JVal.null)
              else .ok (none, JVal.null, JVal.null, JVal.null)
          match resolved with
          | .error e => .error e
          | .ok (textOpt, prText, prUrl, prwt) =>
            match textOpt with
            | some t =>
              if t ≠ "" then
                let summary := summarize_press_release c.generate c.jsonLoads t
                match summary.dictGet "timestamp" (JVal.str "") with
                | .error e => .error e
                | .ok newTs => .ok (summary, prText, prUrl, newTs)
              else .ok (JVal.obj [], prText, prUrl, prwt)
            | none => .ok (JVal.obj [], prText, prUrl, prwt)
        else .ok (JVal.obj [], JVal.null, JVal.null, JVal.null)
    match afterBranch with
    | .error e => .error e
    | .ok (summary, prText, prUrl, prwt) =>
      let result := JVal.obj
        [("press_release_website_timestamp", prwt),
         ("email_timestamp", .str emailInfo.timestamp),
         ("retrieval_timestamp", .str c.now),
         ("summary_timestamp", .str c.now),
         ("email_subject", .str emailInfo.subject),
         ("email_sender", .str sender),
         ("press_release_url", prUrl),
         ("press_release_text", prText),
         ("llm_summary", summary)]
      match c.save result (messageId ++ ".json") with
      | .error e => .error e
      | .ok _ => .ok result

/-- `process_email_message` from `main.py`: run the pipeline under the
single `try`/`except Exception`; any raised exception yields the empty dict
`{}`. -/
def process_email_message (c : Collab) (messageId : String) : JVal :=
  match pipeline c messageId with
  | .ok result => result
  | .error _ => JVal.obj []

/-! ### Claims C6, C7, C8, C9, C4: error containment and bounds -/

/-- Claim C6: for every input string to `_decode_body`, URL-safe base64
decoding as UTF-8 is attempted first; on any failure standard base64
decoding is attempted; if neither variant succeeds (or the input is empty)
the result is `""`; the function is total, so no exception reaches the
caller. -/
theorem C6_decode_body_fallback (data : String) :
    (data = "" → decode_body data = "") ∧
    (∀ s, urlsafe_b64decode_utf8 data = some s → decode_body data = s) ∧
    (urlsafe_b64decode_utf8 data = none →
      ∀ s, standard_b64decode_utf8 data = some s → decode_body data = s) ∧
    (urlsafe_b64decode_utf8 data = none → standard_b64decode_utf8 data = none →
      decode_body data = "") := by
  refine ⟨?_, ?_, ?_, ?_⟩
  · intro h; simp [decode_body, h]
  · intro s h
    by_cases hd : data = ""
    · subst hd
      have h0 : urlsafe_b64decode_utf8 "" = some "" := by rfl
      rw [h0] at h
      injection h with h1
    · simp [decode_body, hd, h]
  · intro h s h2
    by_cases hd : data = ""
    · subst hd
      have h0 : urlsafe_b64decode_utf8 "" = some "" := by rfl
      rw [h0] at h; cases h
    · simp [decode_body, hd, h, h2]
  · intro h h2
    by_cases hd : data = ""
    · simp [decode_body, hd]
    · simp [decode_body, hd, h, h2]

/-- Witness for C6: a URL-safe-decodable input decodes, and an input
invalid under both variants yields `""`. -/
theorem C6_decode_body_fallback_witness :
    decode_body "aGk=" = "hi" ∧ decode_body "a" = "" :=
  ⟨(C6_decode_body_fallback "aGk=").2.1 "hi" (by rfl),
   (C6_decode_body_fallback "a").2.2.2 (by rfl) (by rfl)⟩

/-- Claim C7: for every input HTML string (and every behaviour of the HTML
parser and the redirect resolver), the body returned by
`process_html_content` has at most 1000 characters. -/
theorem C7_body_bounded (parseHtml : String → Except PyErr Soup)
    (httpGet : String → Except String String) (html : String) :
    (process_html_content parseHtml httpGet html).1.length ≤ 1000 := by
  unfold process_html_content
  cases parseHtml html with
  | error e => simp [String.length]
  | ok soup =>
    simp only [pySliceTake]
    show (String.mk ((String.intercalate " " soup.strippedStrings).data.take 1000)).length ≤ 1000
    have h : (String.mk ((String.intercalate " " soup.strippedStrings).data.take 1000)).length
        = ((String.intercalate " " soup.strippedStrings).data.take 1000).length := rfl
    rw [h, List.length_take]
    omega

/-- Claim C8: whenever HTML parsing inside `process_html_content` raises,
the function returns `("", [])` and propagates nothing. -/
theorem C8_parse_failure (parseHtml : String → Except PyErr Soup)
    (httpGet : String → Except String String) (html : String) (e : PyErr)
    (h : parseHtml html = .error e) :
    process_html_content parseHtml httpGet html = ("", []) := by
  unfold process_html_content
  rw [h]

/-- Witness for C8 with a concretely failing parser. -/
theorem C8_parse_failure_witness :
    process_html_content (fun _ => .error PyErr.typeError) (fun u => .ok u) "<p>x</p>"
      = ("", []) :=
  C8_parse_failure _ _ _ PyErr.typeError rfl

/-- Claim C9: for every collaborator behaviour, whenever the pipeline body
raises at any stage, `process_email_message` returns the empty dict `{}`;
its return type is plain (not exception-carrying), so no exception ever
escapes to the caller and the message-consumption loop continues. -/
theorem C9_no_escape (c : Collab) (mid : String) (e : PyErr)
    (h : pipeline c mid = .error e) :
    process_email_message c mid = JVal.obj [] := by
  unfold process_email_message
  rw [h]

/-- A collaborator set whose fetch raises at once. -/
def collabC9 : Collab :=
  { fetch := .error (.exc "boom")
    parseDate := fun _ => none
    now := "NOW"
    parseHtml := fun _ => .error .typeError
    httpGet := fun _ => .error "conn"
    generate := fun _ => .error (.exc "api")
    jsonLoads := fun _ => .error (.exc "json")
    scrape := fun _ => .ok none
    save := fun _ _ => .ok true }

/-- Witness for C9: a raising fetch yields the empty result. -/
theorem C9_no_escape_witness :
    process_email_message collabC9 "m1" = JVal.obj [] :=
  C9_no_escape collabC9 "m1" (.exc "boom") rfl

/-- Claim C4: whenever the model invocation fails or its response is not
parseable JSON, the Classifier returns exactly
`(press_release NO, type null, url null, text null)` with no `timestamp`
key, and the Summarizer returns exactly the four empty-string fields with
no `timestamp` key; both functions are total, so neither raises. -/
theorem C4_failure_defaults (generate : String → Except PyErr String)
    (jsonLoads : String → Except PyErr JVal) (subject body : String)
    (urls : List String) (text : String)
    (hc : ∀ r, generate (construct_classification_prompt subject body urls) = .ok r →
          ∃ e, jsonLoads (pyStrip r) = .error e)
    (hs : ∀ r, generate (construct_summary_prompt text) = .ok r →
          ∃ e, jsonLoads (pyStrip r) = .error e) :
    classify_press_release generate jsonLoads subject body urls =
      JVal.obj [("press_release", .str "NO"), ("type", .null), ("url", .null), ("text", .null)] ∧
    (classify_press_release generate jsonLoads subject body urls).subscript "timestamp"
      = .error .keyError ∧
    summarize_press_release generate jsonLoads text =
      JVal.obj [("headline", .str ""), ("key_result", .str ""),
                ("impacted_program", .str ""), ("next_step", .str "")] ∧
    (summarize_press_release generate jsonLoads text).subscript "timestamp"
      = .error .keyError := by
  have h1 : classify_press_release generate jsonLoads subject body urls = defaultClassification := by
    cases hg : generate (construct_classification_prompt subject body urls) with
    | error e => simp [classify_press_release, call_gemini, hg]
    | ok r =>
      obtain ⟨e, he⟩ := hc r hg
      simp [classify_press_release, call_gemini, hg, he]
  have h2 : summarize_press_release generate jsonLoads text = defaultSummary := by
    cases hg : generate (construct_summary_prompt text) with
    | error e => simp [summarize_press_release, hg]
    | ok r =>
      obtain ⟨e, he⟩ := hs r hg
      simp [summarize_press_release, hg, he]
  refine ⟨h1, ?_, h2, ?_⟩
  · rw [h1]; rfl
  · rw [h2]; rfl

/-- Witness for C4 with a model that answers non-JSON text. -/
theorem C4_failure_defaults_witness :
    classify_press_release (fun _ => .ok "not json") (fun _ => .error (.exc "bad")) "S" "B" [] =
      JVal.obj [("press_release", .str "NO"), ("type", .null), ("url", .null), ("text", .null)] ∧
    (classify_press_release (fun _ => .ok "not json") (fun _ => .error (.exc "bad")) "S" "B" []).subscript "timestamp"
      = .error .keyError ∧
    summarize_press_release (fun _ => .ok "not json") (fun _ => .error (.exc "bad")) "T" =
      JVal.obj [("headline", .str ""), ("key_result", .str ""),
                ("impacted_program", .str ""), ("next_step", .str "")] ∧
    (summarize_press_release (fun _ => .ok "not json") (fun _ => .error (.exc "bad")) "T").subscript "timestamp"
      = .error .keyError :=
  C4_failure_defaults (fun _ => .ok "not json") (fun _ => .error (.exc "bad")) "S" "B" [] "T"
    (fun _ _ => ⟨.exc "bad", rfl⟩) (fun _ _ => ⟨.exc "bad", rfl⟩)

/-! ### Claim C1: HTML priority in the multipart walk -/

/-- A part that makes the `_extract_html` loop return before reaching later
siblings: a `text/html` part with body data, or a nested multipart (with a
`parts` key) whose own extraction is non-empty. -/
def shortCircuits (p : Payload) : Prop :=
  (p.mimeType = "text/html" ∧ p.bodyData ≠ "") ∨
  (pyStartsWith p.mimeType "multipart" = true ∧
    ∃ ps, p.parts = .present ps ∧ extract_html ps ≠ "")

/-- Structural induction on sibling lists (the `induction` tactic does not
apply to mutual inductive types directly). -/
def PayloadList.inductionOn {motive : PayloadList → Prop} :
    ∀ (ps : PayloadList) (nil : motive .nil)
      (cons : ∀ p ps, motive ps → motive (.cons p ps)), motive ps
  | .nil, h0, _ => h0
  | .cons p ps, h0, h1 => h1 p ps (PayloadList.inductionOn ps h0 h1)

/-- One unfolding step of `PayloadList.append` (the mutual-block equations
are not available to `simp`, so the steps are stated once by `rfl`). -/
theorem PayloadList.append_cons (x : Payload) (xs ys : PayloadList) :
    PayloadList.append (.cons x xs) ys = .cons x (PayloadList.append xs ys) := rfl

/-- One unfolding step of the `_extract_html` walk on a cons cell. -/
theorem extractHtmlAux_cons (ty d : String) (prt : PartsField) (rest : PayloadList)
    (plain : Option String) :
    extractHtmlAux (.cons (Payload.mk ty d prt) rest) plain =
      (if ty = "text/html" then
        (if d ≠ "" then decode_body d else extractHtmlAux rest plain)
      else if ty = "text/plain" then
        (if d ≠ "" then extractHtmlAux rest (some (decode_body d))
         else extractHtmlAux rest plain)
      else if pyStartsWith ty "multipart" then
        (match prt with
         | .present ps =>
             if extractHtmlAux ps none ≠ "" then extractHtmlAux ps none
             else extractHtmlAux rest plain
         | .absent => extractHtmlAux rest plain)
      else extractHtmlAux rest plain) := by
  rw [extractHtmlAux.eq_def]

/-- Helper for C1: the walk returns the decoded body of the `text/html`
part as soon as every earlier sibling is non-short-circuiting, for every
value of the plain-text accumulator. -/
theorem extractHtmlAux_first_html (data : String) (hdata : data ≠ "") :
    ∀ (pre : PayloadList), PayloadList.Forall (fun p => ¬ shortCircuits p) pre →
    ∀ (post : PayloadList) (plain : Option String),
    extractHtmlAux
        (PayloadList.append pre (.cons (Payload.mk "text/html" data .absent) post)) plain
      = decode_body data := by
  intro pre
  induction pre using PayloadList.inductionOn with
  | nil =>
    intro _ post plain
    simp [PayloadList.append, extractHtmlAux, hdata]
  | cons p rest ih =>
    intro hpre post plain
    obtain ⟨hp, hrest⟩ := hpre
    obtain ⟨ty, d, prt⟩ := p
    rw [PayloadList.append_cons, extractHtmlAux_cons]
    by_cases h1 : ty = "text/html"
    · have hd : d = "" := by
        by_contra hdne
        exact hp (Or.inl ⟨h1, hdne⟩)
      subst h1; subst hd
      simpa using ih hrest post plain
    · by_cases h2 : ty = "text/plain"
      · subst h2
        by_cases hd : d = ""
        · simpa [hd] using ih hrest post plain
        · simpa [hd] using ih hrest post (some (decode_body d))
      · by_cases h3 : pyStartsWith ty "multipart" = true
        · cases prt with
          | absent => simpa [h1, h2, h3] using ih hrest post plain
          | present ps =>
            have hext2 : extractHtmlAux ps none = "" := by
              by_contra hne
              exact hp (Or.inr ⟨h3, ps, rfl, hne⟩)
            simpa [h1, h2, h3, hext2] using ih hrest post plain
        · simpa [h1, h2, h3] using ih hrest post plain

/-- Claim C1 counterexample: a multipart tree containing a `text/html` part
(decoding to `"Hello"`) where `_extract_html` instead returns the
`pre`-wrapped plaintext of an earlier plaintext-only nested multipart — the
earlier nested subtree short-circuits, contradicting "regardless of ...
nested multipart subtrees that appear earlier". -/
theorem C1_counterexample :
    extract_html
      (.cons (Payload.mk "multipart/alternative" ""
          (.present (.cons (Payload.mk "text/plain" "UGxhaW4=" .absent) .nil)))
        (.cons (Payload.mk "text/html" "SGVsbG8=" .absent) .nil)) = "<pre>Plain</pre>" ∧
    decode_body "SGVsbG8=" = "Hello" ∧
    ("<pre>Plain</pre>" : String) ≠ "Hello" :=
  ⟨rfl, rfl, by decide⟩

/-- Claim C1 (amended): within a sibling list, the first `text/html` part
with body data is returned — decoded — regardless of `text/plain` siblings
appearing earlier, provided every earlier sibling is neither a `text/html`
part with body data nor a nested multipart whose own extraction is
non-empty (such a part short-circuits first, as the counterexample
shows). -/
theorem C1_first_html_priority (pre post : PayloadList) (data : String)
    (hdata : data ≠ "")
    (hpre : PayloadList.Forall (fun p => ¬ shortCircuits p) pre) :
    extract_html (PayloadList.append pre (.cons (Payload.mk "text/html" data .absent) post))
      = decode_body data :=
  extractHtmlAux_first_html data hdata pre hpre post none

/-- Witness for the amended C1: an earlier `text/plain` sibling does not
take priority over the later `text/html` part. -/
theorem C1_first_html_priority_witness :
    extract_html (.cons (Payload.mk "text/plain" "UGxhaW4=" .absent)
        (.cons (Payload.mk "text/html" "SGVsbG8=" .absent) .nil))
      = decode_body "SGVsbG8=" :=
  C1_first_html_priority (.cons (Payload.mk "text/plain" "UGxhaW4=" .absent) .nil) .nil
    "SGVsbG8=" (by decide)
    ⟨fun hs => by
      rcases hs with ⟨ha, _⟩ | ⟨hb, _⟩
      · exact absurd ha (by decide)
      · exact absurd hb (by decide), trivial⟩

/-! ### Claim C2: the timestamp default -/

/-- Claim C2 counterexample: with no `Date` header at all, the returned
timestamp is the empty string — not the injected current UTC time — so the
timestamp is not "never empty". -/
theorem C2_counterexample :
    (parse_email_content (fun _ => none) "2025-01-01T00:00:00+00:00"
      ⟨[("Subject", "S")], Payload.mk "text/plain" "" .absent, "snip"⟩).timestamp = "" ∧
    ("" : String) ≠ "2025-01-01T00:00:00+00:00" :=
  ⟨rfl, by decide⟩

/-- Claim C2 (amended): the timestamp equals the parsed date when the
`Date` header is present and parses; it equals the current UTC time when
the header is present but unparsable; and it is the empty string when the
header is absent or empty. -/
theorem C2_timestamp_default (parseDate : String → Option String) (now : String)
    (msg : MsgData) :
    (headerValue msg.headers "date" = "" →
      (parse_email_content parseDate now msg).timestamp = "") ∧
    (headerValue msg.headers "date" ≠ "" →
      parseDate (headerValue msg.headers "date") = none →
      (parse_email_content parseDate now msg).timestamp = now) ∧
    (∀ t, headerValue msg.headers "date" ≠ "" →
      parseDate (headerValue msg.headers "date") = some t →
      (parse_email_content parseDate now msg).timestamp = t) := by
  refine ⟨?_, ?_, ?_⟩
  · intro h; simp [parse_email_content, h]
  · intro h h2; simp [parse_email_content, h, h2]
  · intro t h h2; simp [parse_email_content, h, h2]

/-- Witness for the amended C2: an unparsable `Date` header yields the
injected current time. -/
theorem C2_timestamp_default_witness :
    (parse_email_content (fun _ => none) "NOW"
      ⟨[("Date", "not a date")], Payload.mk "text/plain" "" .absent, ""⟩).timestamp = "NOW" :=
  (C2_timestamp_default (fun _ => none) "NOW" _).2.1 (by decide) rfl

/-! ### Claim C5: URL deduplication -/

/-- Claim C5 counterexample: two distinct anchor hrefs resolved by the
redirect collaborator to the same final URL yield a returned list with a
repeated entry, so the output of `process_html_content` is not
duplicate-free. -/
theorem C5_counterexample :
    (process_html_content (fun _ => .ok ⟨["http://a", "http://b"], [], ""⟩)
        (fun _ => .ok "http://c") "x").2 = ["http://c", "http://c"] ∧
    ¬ (["http://c", "http://c"] : List String).Nodup :=
  ⟨rfl, by decide⟩

/-- Claim C5 (amended): the candidate list built from anchor hrefs and bare
text URLs is deduplicated before resolution, and the returned list is the
image of that duplicate-free list under the resolver — so duplicates can
only arise when the resolver maps distinct candidates to equal strings. -/
theorem C5_dedup_before_resolve (parseHtml : String → Except PyErr Soup)
    (httpGet : String → Except String String) (html : String) (soup : Soup)
    (h : parseHtml html = .ok soup) :
    (dedupUrls soup.anchorHrefs (findUrls soup.textContent)).Nodup ∧
    (process_html_content parseHtml httpGet html).2
      = resolve_urls httpGet (dedupUrls soup.anchorHrefs (findUrls soup.textContent)) := by
  constructor
  · exact List.nodup_dedup _
  · unfold process_html_content
    rw [h]

/-- Witness for the amended C5 on a concrete soup. -/
theorem C5_dedup_before_resolve_witness :
    (dedupUrls ["http://a", "http://b"] (findUrls "")).Nodup ∧
    (process_html_content (fun _ => .ok ⟨["http://a", "http://b"], [], ""⟩)
        (fun _ => .ok "http://c") "x").2
      = resolve_urls (fun _ => .ok "http://c")
          (dedupUrls ["http://a", "http://b"] (findUrls "")) :=
  C5_dedup_before_resolve _ _ "x" ⟨["http://a", "http://b"], [], ""⟩ rfl

/-! ### Claim C3: the inline press-release timestamp -/

/-- Claim C3 (amended): in the inline press-release path (classification
`YES`/`inline`, non-empty normalized body), the Summarizer is invoked on
the inline text and the final `press_release_website_timestamp` equals
`summary.get('timestamp', '')` — the summary's timestamp when the summary
provides one, but the empty string (not the classifier's timestamp) when it
does not. -/
theorem C3_inline_timestamp (c : Collab) (mid : String) (msg : MsgData)
    (cls sum tsv v : JVal)
    (hfetch : c.fetch = .ok msg)
    (hcls : classify_press_release c.generate c.jsonLoads
        (parse_email_content c.parseDate c.now msg).subject
        (process_html_content c.parseHtml c.httpGet
          (parse_email_content c.parseDate c.now msg).html).1
        (process_html_content c.parseHtml c.httpGet
          (parse_email_content c.parseDate c.now msg).html).2 = cls)
    (h1 : cls.subscript "press_release" = .ok (.str "YES"))
    (h2 : cls.subscript "type" = .ok (.str "inline"))
    (h3 : cls.subscript "timestamp" = .ok tsv)
    (hbody : (process_html_content c.parseHtml c.httpGet
        (parse_email_content c.parseDate c.now msg).html).1 ≠ "")
    (hsum : summarize_press_release c.generate c.jsonLoads
        (process_html_content c.parseHtml c.httpGet
          (parse_email_content c.parseDate c.now msg).html).1 = sum)
    (hget : sum.dictGet "timestamp" (JVal.str "") = .ok v)
    (hsave : ∀ r k, ∃ b, c.save r k = .ok b) :
    (process_email_message c mid).subscript "press_release_website_timestamp" = .ok v := by
  unfold process_email_message pipeline
  rw [hfetch]
  simp only [hcls, h1, h2, h3, hsum, hget, JVal.eqStr]
  simp only [decide_True, if_true, hbody, ite_true, ne_eq, not_false_eq_true]
  simp only [hsum, hget]
  obtain ⟨b, hb⟩ := hsave _ _
  rw [hb]
  simp [JVal.subscript]

/-- The classification returned in the C3 scenario: YES, inline, with a
classifier-extracted timestamp. -/
def clsInline : JVal :=
  .obj [("press_release", .str "YES"), ("type", .str "inline"), ("url", .null),
        ("text", .str "Launch news"), ("timestamp", .str "2025-05-20")]

/-- A summary object without a `timestamp` key. -/
def sumNoTs : JVal :=
  .obj [("headline", .str "H"), ("key_result", .str "K"),
        ("impacted_program", .str "I"), ("next_step", .str "N")]

/-- A summary object with a `timestamp` key. -/
def sumWithTs : JVal :=
  .obj [("headline", .str "H"), ("key_result", .str "K"),
        ("impacted_program", .str "I"), ("next_step", .str "N"),
        ("timestamp", .str "2099-01-01")]

/-- A message whose single part is an HTML body. -/
def msgInline : MsgData :=
  ⟨[("Subject", "S")], Payload.mk "text/html" "SGVsbG8=" .absent, "snip"⟩

/-- Collaborators for the C3 scenario: the model echoes its prompt, and the
JSON decoder answers the classification above for the classification prompt
and the timestamp-less summary for the summary prompt. -/
def collabC3 : Collab :=
  { fetch := .ok msgInline
    parseDate := fun _ => none
    now := "NOW"
    parseHtml := fun _ => .ok ⟨[], ["Launch news"], ""⟩
    httpGet := fun u => .ok u
    generate := fun p => .ok p
    jsonLoads := fun s =>
      if s = pyStrip (construct_summary_prompt "Launch news") then .ok sumNoTs
      else .ok clsInline
    scrape := fun _ => .ok none
    save := fun _ _ => .ok true }

/-- The same collaborators, except that the summary carries a timestamp. -/
def collabC3W : Collab :=
  { collabC3 with
    jsonLoads := fun s =>
      if s = pyStrip (construct_summary_prompt "Launch news") then .ok sumWithTs
      else .ok clsInline }

set_option maxRecDepth 100000 in
/-- Claim C3 counterexample: classification `YES`/`inline` with timestamp
`2025-05-20` and a non-empty body, but a summary without a timestamp —
the final `press_release_website_timestamp` is the empty string, not the
classifier's `2025-05-20`: there is no fallback to the classifier's
timestamp. -/
theorem C3_counterexample :
    (process_email_message collabC3 "m").subscript "press_release_website_timestamp"
      = .ok (JVal.str "") ∧
    clsInline.subscript "timestamp" = .ok (JVal.str "2025-05-20") ∧
    JVal.str "" ≠ JVal.str "2025-05-20" := by
  refine ⟨rfl, rfl, ?_⟩
  intro h
  injection h with h2
  exact absurd h2 (by decide)

set_option maxRecDepth 100000 in
/-- Witness for the amended C3: when the summary does carry a timestamp,
that timestamp is the final one. -/
theorem C3_inline_timestamp_witness :
    (process_email_message collabC3W "m").subscript "press_release_website_timestamp"
      = .ok (JVal.str "2099-01-01") :=
  C3_inline_timestamp collabC3W "m" msgInline clsInline sumWithTs
    (JVal.str "2025-05-20") (JVal.str "2099-01-01")
    rfl rfl rfl rfl rfl (by decide) rfl rfl (fun r k => ⟨true, rfl⟩)

/-! ### Claim C10: unvalidated classification values -/

/-- Claim C10: when the model's response parses as JSON whose value does
not support `['press_release']` (an object missing the key, an array,
etc.), the Classifier returns that parsed value unchanged — not the `NO`
default — and the orchestrator's subscript then raises, so the whole
message yields the empty result `{}` instead of a skipped-not-press-release
record. -/
theorem C10_unvalidated_classification (c : Collab) (mid : String) (msg : MsgData)
    (r : String) (v : JVal) (e : PyErr)
    (hfetch : c.fetch = .ok msg)
    (hgen : c.generate (construct_classification_prompt
        (parse_email_content c.parseDate c.now msg).subject
        (process_html_content c.parseHtml c.httpGet
          (parse_email_content c.parseDate c.now msg).html).1
        (process_html_content c.parseHtml c.httpGet
          (parse_email_content c.parseDate c.now msg).html).2) = .ok r)
    (hload : c.jsonLoads (pyStrip r) = .ok v)
    (hv : v.subscript "press_release" = .error e) :
    classify_press_release c.generate c.jsonLoads
        (parse_email_content c.parseDate c.now msg).subject
        (process_html_content c.parseHtml c.httpGet
          (parse_email_content c.parseDate c.now msg).html).1
        (process_html_content c.parseHtml c.httpGet
          (parse_email_content c.parseDate c.now msg).html).2 = v ∧
    process_email_message c mid = JVal.obj [] := by
  have hcls : classify_press_release c.generate c.jsonLoads
      (parse_email_content c.parseDate c.now msg).subject
      (process_html_content c.parseHtml c.httpGet
        (parse_email_content c.parseDate c.now msg).html).1
      (process_html_content c.parseHtml c.httpGet
        (parse_email_content c.parseDate c.now msg).html).2 = v := by
    simp [classify_press_release, call_gemini, hgen, hload]
  refine ⟨hcls, ?_⟩
  unfold process_email_message pipeline
  rw [hfetch]
  simp only [hcls, hv]

/-- A message for the C10 scenario. -/
def msgC10 : MsgData :=
  ⟨[("Subject", "S")], Payload.mk "text/plain" "UGxhaW4=" .absent, "snip"⟩

/-- Collaborators whose model answers a JSON array, which the classifier
passes through unvalidated. -/
def collabC10 : Collab :=
  { fetch := .ok msgC10
    parseDate := fun _ => none
    now := "NOW"
    parseHtml := fun _ => .ok ⟨[], ["body text"], ""⟩
    httpGet := fun u => .ok u
    generate := fun _ => .ok "[]"
    jsonLoads := fun _ => .ok (.arr [])
    scrape := fun _ => .ok none
    save := fun _ _ => .ok true }

set_option maxRecDepth 100000 in
/-- Witness for C10: a JSON-array response flows through the classifier
unchanged and the message yields `{}`. -/
theorem C10_unvalidated_classification_witness :
    classify_press_release collabC10.generate collabC10.jsonLoads
        (parse_email_content collabC10.parseDate collabC10.now msgC10).subject
        (process_html_content collabC10.parseHtml collabC10.httpGet
          (parse_email_content collabC10.parseDate collabC10.now msgC10).html).1
        (process_html_content collabC10.parseHtml collabC10.httpGet
          (parse_email_content collabC10.parseDate collabC10.now msgC10).html).2 = .arr [] ∧
    process_email_message collabC10 "m" = JVal.obj [] :=
  C10_unvalidated_classification collabC10 "m" msgC10 "[]" (.arr []) .typeError
    rfl rfl rfl rfl
